import Mathlib

/-!
Shallow embedding of two components of a durable-execution engine and proofs
of the specification's claims about them:

* `service/history/api/create_workflow_util.go` — execution-creation helpers
  (`ValidateStart`, `NewWorkflowVersionCheck`, `NewWorkflowWithSignal`,
  `GenerateFirstWorkflowTask`);
* `service/worker/deletenamespace/reclaimresources/workflow.go` — the
  resource-reclamation saga (`ReclaimResourcesWorkflow`,
  `deleteWorkflowExecutions`, the cancellable optional-delay loop).

The saga is embedded as a deterministic function of an environment that fixes
the outcome of every remote call (activity, child workflow, timer); its value
is the accumulated result, the returned error, and the trace of calls issued,
so that temporal claims ("X is never invoked unless Y succeeded") become
statements about the trace.
-/

namespace CreateWorkflowUtil

/-- Service-level errors surfaced by the creation helpers. -/
inductive ServiceError where
  | namespaceNotActive (namespaceName currentCluster activeCluster : String)
  | blobSizeExceedsLimit
  | memoSizeExceedsLimit
  deriving DecidableEq, Repr

/-- Metrics emitted by the size-check stage of `ValidateStart`. -/
inductive Metric where
  | blobSizeExceedsWarn (size : Nat)
  | memoSize (size : Nat)
  deriving DecidableEq, Repr

/-- Modelled from the spec: `common.CheckEventBlobSizeLimit` (code not under
`src/`). Below the warn threshold the check passes silently; between warn and
error it passes but emits a size metric (and a log entry); at or above the
error threshold it fails with the distinct blob-too-large error. -/
def CheckEventBlobSizeLimit (actualSize warnLimit errorLimit : Nat) :
    Option ServiceError × List Metric :=
  if actualSize < warnLimit then (Option.none, [])
  else if actualSize < errorLimit then
    (Option.none, [Metric.blobSizeExceedsWarn actualSize])
  else
    (Option.some ServiceError.blobSizeExceedsLimit,
     [Metric.blobSizeExceedsWarn actualSize])

/-- Namespace-scoped blob-size limits used by `ValidateStart`
(`config.BlobSizeLimitWarn` etc. resolved for the request's namespace). -/
structure SizeLimits where
  blobSizeLimitWarn : Nat
  blobSizeLimitError : Nat
  memoSizeLimitWarn : Nat
  memoSizeLimitError : Nat
  deriving DecidableEq, Repr

/-- Embedding of `ValidateStart` (create_workflow_util.go, lines 225-270):
first the input-payload size check, then the unconditional memo-size metric
recording, then the memo size check, which on failure is rewritten to the
distinct memo-size-exceeds-limit error. Returns the validation outcome and
the list of metrics emitted, in emission order. -/
def ValidateStart (limits : SizeLimits) (workflowInputSize workflowMemoSize : Nat) :
    Option ServiceError × List Metric :=
  match CheckEventBlobSizeLimit workflowInputSize limits.blobSizeLimitWarn limits.blobSizeLimitError with
  | (Option.some e, ms) => (Option.some e, ms)
  | (Option.none, ms) =>
    let ms1 := ms ++ [Metric.memoSize workflowMemoSize]
    match CheckEventBlobSizeLimit workflowMemoSize limits.memoSizeLimitWarn limits.memoSizeLimitError with
    | (Option.some _, ms2) => (Option.some ServiceError.memoSizeExceedsLimit, ms1 ++ ms2)
    | (Option.none, ms2) => (Option.none, ms1 ++ ms2)

/-- True when the metric list contains the memo-size metric recording. -/
def hasMemoSizeMetric (ms : List Metric) : Bool :=
  ms.any fun m =>
    match m with
    | Metric.memoSize _ => true
    | _ => false

/-- Modelled from the spec: the sentinel "empty version" (`common.EmptyVersion`,
code not under `src/`) marking the absence of a prior execution attempt. Its
concrete value does not affect the properties proved here. -/
def EmptyVersion : Int := 0

/-- The slice of cluster metadata consulted by `NewWorkflowVersionCheck`. -/
structure ClusterMetadata where
  currentClusterName : String
  clusterNameForFailoverVersion : Bool → Int → String

/-- The slice of the new mutable state consulted by `NewWorkflowVersionCheck`:
its current (failover) version and its namespace entry. -/
structure MutableStateVersionView where
  currentVersion : Int
  namespaceName : String
  isGlobalNamespace : Bool
  deriving DecidableEq, Repr

/-- Embedding of `NewWorkflowVersionCheck` (create_workflow_util.go, lines
203-223): succeeds when the prior last-write version is the empty sentinel or
is not newer than the new state's current version; otherwise fails with a
namespace-not-active error naming the cluster that owns the prior version. -/
def NewWorkflowVersionCheck (cm : ClusterMetadata) (prevLastWriteVersion : Int)
    (newMutableState : MutableStateVersionView) : Option ServiceError :=
  if prevLastWriteVersion = EmptyVersion then Option.none
  else if prevLastWriteVersion > newMutableState.currentVersion then
    Option.some (ServiceError.namespaceNotActive
      newMutableState.namespaceName
      cm.currentClusterName
      (cm.clusterNameForFailoverVersion newMutableState.isGlobalNamespace prevLastWriteVersion))
  else Option.none

/-- State of the first workflow task of a fresh execution:
`none → scheduled → (optional) started`. -/
inductive WorkflowTaskState where
  | none
  | scheduled
  | started
  deriving DecidableEq, Repr

/-- The kinds of history events appended during initialization. -/
inductive HistoryEventKind where
  | workflowExecutionStarted
  | workflowExecutionSignaled (signalName : String) (identity : String)
  | workflowTaskScheduled
  | workflowTaskStarted (requestId : String)
  deriving DecidableEq, Repr

/-- The slice of `workflow.MutableState` touched by `NewWorkflowWithSignal`:
the event history built so far, the state of the first workflow task, and the
recorded signal-request-id markers. -/
structure MutableState where
  workflowId : String
  runId : String
  events : List HistoryEventKind
  workflowTaskState : WorkflowTaskState
  signalRequestedIds : List String
  deriving DecidableEq, Repr

/-- A fresh mutable state as built by `CreateMutableState`: empty history, no
workflow task, no signal markers. -/
def freshMutableState (workflowID runID : String) : MutableState :=
  { workflowId := workflowID
    runId := runID
    events := []
    workflowTaskState := WorkflowTaskState.none
    signalRequestedIds := [] }

/-- Parent-execution info attached to a start request when the new execution
is a child of another execution. Only its presence matters here. -/
structure ParentExecutionInfo where
  parentNamespaceId : String
  parentWorkflowId : String
  parentRunId : String
  deriving DecidableEq, Repr

/-- The slice of the start request consulted by `NewWorkflowWithSignal`:
request id, identity, the eager-dispatch flag, and whether the start event
carries a first-workflow-task backoff (cron / workflow retry). -/
structure StartRequest where
  requestId : String
  identity : String
  requestEagerExecution : Bool
  firstWorkflowTaskBackoff : Bool
  deriving DecidableEq, Repr

/-- The slice of a signal-with-start request consulted by
`NewWorkflowWithSignal`. -/
structure SignalWithStartRequest where
  requestId : String
  signalName : String
  identity : String
  deriving DecidableEq, Repr

/-- Modelled from the spec: `workflow.MutableState.AddSignalRequested`
(not under `src/`) — records a "signal requested" marker keyed by the
signal's own request id. -/
def AddSignalRequested (ms : MutableState) (requestId : String) : MutableState :=
  { ms with signalRequestedIds := ms.signalRequestedIds ++ [requestId] }

/-- Modelled from the spec: `workflow.MutableState.AddWorkflowExecutionSignaled`
(not under `src/`) — appends an "execution signaled" event. -/
def AddWorkflowExecutionSignaled (ms : MutableState) (signalName identity : String) :
    MutableState :=
  { ms with events := ms.events ++ [HistoryEventKind.workflowExecutionSignaled signalName identity] }

/-- Modelled from the spec: `workflow.MutableState.AddFirstWorkflowTaskScheduled`
(not under `src/`) — schedules the first workflow task unless the start event
carries a deferred-start backoff (cron or workflow retry), in which case no
task is created. Returns the updated state and the scheduled event id (0 when
nothing was scheduled). The `bypassTaskGeneration` flag only affects transfer
task generation, not the event-sourced state modelled here. -/
def AddFirstWorkflowTaskScheduled (ms : MutableState) (hasBackoff : Bool)
    (bypassTaskGeneration : Bool) : MutableState × Int :=
  let _ := bypassTaskGeneration
  if hasBackoff then (ms, 0)
  else
    ({ ms with
        events := ms.events ++ [HistoryEventKind.workflowTaskScheduled]
        workflowTaskState := WorkflowTaskState.scheduled },
     Int.ofNat ms.events.length + 1)

/-- Modelled from the spec: `workflow.MutableState.AddWorkflowTaskStartedEvent`
(not under `src/`) — transitions the pending first workflow task to the
started state and appends the corresponding event. -/
def AddWorkflowTaskStartedEvent (ms : MutableState) (scheduledEventID : Int)
    (requestId : String) : MutableState :=
  let _ := scheduledEventID
  { ms with
      events := ms.events ++ [HistoryEventKind.workflowTaskStarted requestId]
      workflowTaskState := WorkflowTaskState.started }

/-- Modelled from the spec: `workflow.MutableState.HasPendingWorkflowTask`
(not under `src/`) — a pending workflow task exists. -/
def HasPendingWorkflowTask (ms : MutableState) : Bool :=
  match ms.workflowTaskState with
  | WorkflowTaskState.none => false
  | _ => true

/-- Embedding of `GenerateFirstWorkflowTask` (create_workflow_util.go, lines
190-201): the first workflow task is scheduled only when the execution is not
a child workflow (no parent info); for a child execution nothing is scheduled
and scheduled-event id 0 is returned (with no error in the source). -/
def GenerateFirstWorkflowTask (ms : MutableState)
    (parentInfo : Option ParentExecutionInfo) (startEventHasBackoff : Bool)
    (bypassTaskGeneration : Bool) : MutableState × Int :=
  match parentInfo with
  | Option.none => AddFirstWorkflowTaskScheduled ms startEventHasBackoff bypassTaskGeneration
  | Option.some _ => (ms, 0)

/-- Failure injection for the fallible mutable-state operations used by
`NewWorkflowWithSignal`; the all-or-nothing structure of initialization is
visible through these flags. -/
structure InitEnv where
  createMutableStateOk : Bool
  addStartedEventOk : Bool
  addSignaledOk : Bool
  addWorkflowTaskStartedOk : Bool
  deriving DecidableEq, Repr

/-- The error cases of initialization, one per fallible operation. -/
inductive InitError where
  | createMutableStateFailed
  | addStartedEventFailed
  | addSignaledFailed
  | addWorkflowTaskStartedFailed
  deriving DecidableEq, Repr

/-- Embedding of `NewWorkflowWithSignal` (create_workflow_util.go, lines
60-138): create a fresh mutable state, append the execution-started event,
optionally record the signal marker (only for a non-empty signal request id)
and append the signaled event, generate the first workflow task (skipped for
child executions), and — when eager dispatch was requested and a workflow
task is pending — transition it to started. Any failure aborts the whole
initialization. -/
def NewWorkflowWithSignal (env : InitEnv) (workflowID runID : String)
    (startRequest : StartRequest) (parentInfo : Option ParentExecutionInfo)
    (signalWithStartRequest : Option SignalWithStartRequest) :
    Except InitError MutableState :=
  if env.createMutableStateOk = false then Except.error InitError.createMutableStateFailed
  else
    let ms0 := freshMutableState workflowID runID
    if env.addStartedEventOk = false then Except.error InitError.addStartedEventFailed
    else
      let ms1 := { ms0 with events := ms0.events ++ [HistoryEventKind.workflowExecutionStarted] }
      let signalStep : Except InitError MutableState :=
        match signalWithStartRequest with
        | Option.none => Except.ok ms1
        | Option.some s =>
          let ms2 := if s.requestId = "" then ms1 else AddSignalRequested ms1 s.requestId
          if env.addSignaledOk = false then Except.error InitError.addSignaledFailed
          else Except.ok (AddWorkflowExecutionSignaled ms2 s.signalName s.identity)
      match signalStep with
      | Except.error e => Except.error e
      | Except.ok ms2 =>
        let requestEagerExecution := startRequest.requestEagerExecution
        let gen := GenerateFirstWorkflowTask ms2 parentInfo
          startRequest.firstWorkflowTaskBackoff requestEagerExecution
        let ms3 := gen.1
        let scheduledEventID := gen.2
        if requestEagerExecution && HasPendingWorkflowTask ms3 then
          if env.addWorkflowTaskStartedOk = false then
            Except.error InitError.addWorkflowTaskStartedFailed
          else
            Except.ok (AddWorkflowTaskStartedEvent ms3 scheduledEventID startRequest.requestId)
        else Except.ok ms3

end CreateWorkflowUtil

namespace ReclaimResources

/-- An application error as raised by activities and workflows: a message, an
error type tag, the non-retryable flag, and optional integer details (the
residual not-deleted-executions count). `NewNonRetryableApplicationError`
yields `nonRetryable = true`; `NewApplicationError` yields
`nonRetryable = false` with the given details attached. -/
structure ApplicationError where
  message : String
  errType : String
  nonRetryable : Bool
  details : Option Int
  deriving DecidableEq, Repr

/-- An error produced by a remote call (activity or child workflow): either a
typed application error or some other infrastructure error. -/
inductive CallError where
  | app (e : ApplicationError)
  | other (message : String)
  deriving DecidableEq, Repr

/-- The errors `ReclaimResourcesWorkflow` can return: a bare application
error (parameter validation, or the converted retryable ensure-no-executions
error), the unable-to-set-update-handler sentinel, a failed durable sleep,
or a wrapped activity / child-workflow failure naming the failed operation
(`fmt.Errorf` around `errors.ErrUnableToExecuteActivity` /
`errors.ErrUnableToExecuteChildWorkflow`). -/
inductive WorkflowError where
  | app (e : ApplicationError)
  | unableToSetUpdateHandler
  | sleepFailed
  | unableToExecuteActivity (activityName : String) (cause : CallError)
  | unableToExecuteChildWorkflow (workflowName : String) (cause : CallError)
  deriving DecidableEq, Repr

/-- `ReclaimResourcesResult` (workflow.go, lines 58-62). -/
structure ReclaimResourcesResult where
  deleteSuccessCount : Int
  deleteErrorCount : Int
  namespaceDeleted : Bool
  deriving DecidableEq, Repr

/-- The zero value of `ReclaimResourcesResult`, as declared by
`var result ReclaimResourcesResult`. -/
def emptyResult : ReclaimResourcesResult :=
  { deleteSuccessCount := 0, deleteErrorCount := 0, namespaceDeleted := false }

/-- The slice of `ReclaimResourcesParams` consulted here: the namespace
identity and the optional post-delete delay (a duration in nanoseconds;
0 means no delay). -/
structure ReclaimResourcesParams where
  namespaceID : String
  namespaceName : String
  namespaceDeleteDelay : Int
  deriving DecidableEq, Repr

/-- `deleteexecutions.DeleteExecutionsResult`: the success/error counts
reported by the bulk-deletion child workflow. -/
structure DeleteExecutionsResult where
  successCount : Int
  errorCount : Int
  deriving DecidableEq, Repr

/-- One observable call issued by the saga: a local activity, an activity, a
child workflow (with its deterministic workflow id), or a durable sleep
(recording whether the wait was cancelled before elapsing). -/
inductive Call where
  | localActivity (name : String)
  | activity (name : String)
  | childWorkflow (workflowType : String) (workflowId : String)
  | sleep (duration : Int) (cancelled : Bool)
  deriving DecidableEq, Repr

/-- Error-type constants of the `deletenamespace/errors` package (code not
under `src/`); only their distinctness matters. -/
def ExecutionsStillExistErrType : String := "ExecutionsStillExist"

/-- Error-type constant: no progress made deleting executions. -/
def NoProgressErrType : String := "NoProgress"

/-- Error-type constant: not-deleted executions still exist. -/
def NotDeletedExecutionsStillExistErrType : String := "NotDeletedExecutionsStillExist"

/-- Name of the obsolete visibility-backend probe local activity. -/
def IsAdvancedVisibilityActivityName : String := "IsAdvancedVisibilityActivity"

/-- Name of the count-executions local activity. -/
def CountExecutionsAdvVisibilityActivityName : String := "CountExecutionsAdvVisibilityActivity"

/-- Name of the ensure-no-executions-remain activity. -/
def EnsureNoExecutionsAdvVisibilityActivityName : String := "EnsureNoExecutionsAdvVisibilityActivity"

/-- Name of the namespace-record deletion local activity. -/
def DeleteNamespaceActivityName : String := "DeleteNamespaceActivity"

/-- `deleteexecutions.WorkflowName` (code not under `src/`), used both as the
child workflow type and as the base of its deterministic workflow id. -/
def DeleteExecutionsWorkflowName : String := "temporal-sys-delete-executions-workflow"

/-- `workflow.DefaultVersion` of the SDK: the version reported for histories
recorded before any `GetVersion` marker existed for a change id. -/
def DefaultVersion : Int := -1

/-- `namespaceCacheRefreshDelay = 11 * time.Second`, in nanoseconds. -/
def namespaceCacheRefreshDelay : Int := 11 * 1000000000

/-- Modelled from the spec: the SDK's `workflow.GetVersion` (not under
`src/`). On first execution it records and returns the maximum supported
version; on replay it returns the version marker recorded in history, or
`DefaultVersion` when the history predates the change and carries no marker.
The branch is thus selected by the recorded marker, never by re-evaluating
current code. -/
def getVersion (isReplay : Bool) (recordedMarker : Option Int) (maxSupported : Int) : Int :=
  match recordedMarker with
  | Option.some v => v
  | Option.none => if isReplay then DefaultVersion else maxSupported

/-- The environment fixing the outcome of every remote call of one saga run:
replay status and recorded `remove-std-vis` version marker, the outcome of
each activity / child workflow, whether registering the update handler and
the initial cache-settle sleep succeed, and the reconfiguration values
delivered through the `update_namespace_delete_delay` handler — one per
outstanding delay wait, each cancelling that wait and replacing the delay. -/
structure SagaEnv where
  isReplay : Bool
  recordedRemoveStdVisMarker : Option Int
  isAdvancedVisibilityResult : Except CallError Bool
  countExecutionsResult : Except CallError Int
  deleteExecutionsChildResult : Except CallError DeleteExecutionsResult
  ensureNoExecutionsResult : Except CallError Unit
  deleteNamespaceResult : Except CallError Unit
  setUpdateHandlerOk : Bool
  initialSleepOk : Bool
  delayUpdates : List Int
  deriving Repr

/-- The outcome of a saga step or of the whole saga: the (possibly partial)
result, the returned error if any, and the trace of calls issued. -/
structure StepOutcome where
  result : ReclaimResourcesResult
  error : Option WorkflowError
  calls : List Call
  deriving DecidableEq, Repr

/-- Embedding of `deleteWorkflowExecutions` (workflow.go, lines 222-286):
run the obsolete visibility probe only when the recorded `remove-std-vis`
version marker yields `DefaultVersion`; query the execution count and return
the zero result immediately when it is 0; otherwise run the bulk-deletion
child workflow (deterministic id `WorkflowName/namespace`), record its
counts, and run the ensure-no-executions activity, converting its
executions-still-exist / no-progress / not-deleted-still-exist application
errors into a retryable application error of the same type carrying the
residual count as details. Every error is returned together with the result
accumulated so far. -/
def deleteWorkflowExecutions (env : SagaEnv) (params : ReclaimResourcesParams) : StepOutcome :=
  let v := getVersion env.isReplay env.recordedRemoveStdVisMarker 0
  let probe : Option WorkflowError × List Call :=
    if v = DefaultVersion then
      match env.isAdvancedVisibilityResult with
      | Except.error e =>
        (Option.some (WorkflowError.unableToExecuteActivity IsAdvancedVisibilityActivityName e),
         [Call.localActivity IsAdvancedVisibilityActivityName])
      | Except.ok _ => (Option.none, [Call.localActivity IsAdvancedVisibilityActivityName])
    else (Option.none, [])
  match probe with
  | (Option.some e, calls) => { result := emptyResult, error := Option.some e, calls := calls }
  | (Option.none, calls0) =>
    let calls1 := calls0 ++ [Call.localActivity CountExecutionsAdvVisibilityActivityName]
    match env.countExecutionsResult with
    | Except.error e =>
      { result := emptyResult
        error := Option.some (WorkflowError.unableToExecuteActivity
          CountExecutionsAdvVisibilityActivityName e)
        calls := calls1 }
    | Except.ok executionsCount =>
      if executionsCount = 0 then { result := emptyResult, error := Option.none, calls := calls1 }
      else
        let childId := DeleteExecutionsWorkflowName ++ "/" ++ params.namespaceName
        let calls2 := calls1 ++ [Call.childWorkflow DeleteExecutionsWorkflowName childId]
        match env.deleteExecutionsChildResult with
        | Except.error e =>
          { result := emptyResult
            error := Option.some (WorkflowError.unableToExecuteChildWorkflow
              DeleteExecutionsWorkflowName e)
            calls := calls2 }
        | Except.ok der =>
          let result1 : ReclaimResourcesResult :=
            { deleteSuccessCount := der.successCount
              deleteErrorCount := der.errorCount
              namespaceDeleted := false }
          let calls3 := calls2 ++ [Call.activity EnsureNoExecutionsAdvVisibilityActivityName]
          match env.ensureNoExecutionsResult with
          | Except.ok _ => { result := result1, error := Option.none, calls := calls3 }
          | Except.error ce =>
            match ce with
            | CallError.app appErr =>
              if appErr.errType = ExecutionsStillExistErrType ∨
                  appErr.errType = NoProgressErrType ∨
                  appErr.errType = NotDeletedExecutionsStillExistErrType then
                let notDeletedCount := appErr.details.getD 0
                { result := result1
                  error := Option.some (WorkflowError.app
                    { message := appErr.message
                      errType := appErr.errType
                      nonRetryable := false
                      details := Option.some notDeletedCount })
                  calls := calls3 }
              else
                { result := result1
                  error := Option.some (WorkflowError.unableToExecuteActivity
                    EnsureNoExecutionsAdvVisibilityActivityName ce)
                  calls := calls3 }
            | CallError.other _ =>
              { result := result1
                error := Option.some (WorkflowError.unableToExecuteActivity
                  EnsureNoExecutionsAdvVisibilityActivityName ce)
                calls := calls3 }

/-- Embedding of the optional-delay loop (workflow.go, lines 199-208): while
the delay is positive, arm a cancellable sleep, zeroing the stored delay
beforehand. Each delivered reconfiguration (an element of `updates`) cancels
the outstanding wait and replaces the delay with its value, so the loop
re-evaluates; with no reconfiguration the wait elapses fully and the loop
exits (the stored delay is already 0). Returns the trace of sleeps armed. -/
def awaitOptionalDelay (delay : Int) : List Int → List Call
  | [] => if delay > 0 then [Call.sleep delay false] else []
  | u :: rest =>
    if delay > 0 then Call.sleep delay true :: awaitOptionalDelay u rest
    else []

/-- Embedding of `validateParams` (workflow.go, lines 94-106): namespace id
and namespace name are required; violations are non-retryable application
errors. -/
def validateParams (params : ReclaimResourcesParams) : Option ApplicationError :=
  if params.namespaceID = "" then
    Option.some { message := "namespace ID is required", errType := "", nonRetryable := true, details := Option.none }
  else if params.namespaceName = "" then
    Option.some { message := "namespace is required", errType := "", nonRetryable := true, details := Option.none }
  else Option.none

/-- Embedding of `ReclaimResourcesWorkflow` (workflow.go, lines 108-220):
validate parameters, register the delay-reconfiguration update handler, wait
for the namespace cache to settle, run the delete-executions step (returning
its partial result and error on failure), run the optional-delay loop, then
the namespace-record deletion local activity, and only on its success set
`NamespaceDeleted` in the result. -/
def ReclaimResourcesWorkflow (env : SagaEnv) (params : ReclaimResourcesParams) : StepOutcome :=
  match validateParams params with
  | Option.some e => { result := emptyResult, error := Option.some (WorkflowError.app e), calls := [] }
  | Option.none =>
    if env.setUpdateHandlerOk = false then
      { result := emptyResult, error := Option.some WorkflowError.unableToSetUpdateHandler, calls := [] }
    else if env.initialSleepOk = false then
      { result := emptyResult
        error := Option.some WorkflowError.sleepFailed
        calls := [Call.sleep namespaceCacheRefreshDelay true] }
    else
      let calls0 := [Call.sleep namespaceCacheRefreshDelay false]
      let dwe := deleteWorkflowExecutions env params
      match dwe.error with
      | Option.some e =>
        { result := dwe.result, error := Option.some e, calls := calls0 ++ dwe.calls }
      | Option.none =>
        let delayCalls := awaitOptionalDelay params.namespaceDeleteDelay env.delayUpdates
        let calls1 := calls0 ++ dwe.calls ++ delayCalls ++
          [Call.localActivity DeleteNamespaceActivityName]
        match env.deleteNamespaceResult with
        | Except.error e =>
          { result := dwe.result
            error := Option.some (WorkflowError.unableToExecuteActivity
              DeleteNamespaceActivityName e)
            calls := calls1 }
        | Except.ok _ =>
          { result := { dwe.result with namespaceDeleted := true }
            error := Option.none
            calls := calls1 }

end ReclaimResources

namespace CreateWorkflowUtil

/-- All-success failure-injection environment. -/
def initEnvOk : InitEnv :=
  { createMutableStateOk := true
    addStartedEventOk := true
    addSignaledOk := true
    addWorkflowTaskStartedOk := true }

/-- Extract the success value of an initialization outcome (fallback on a
fresh anonymous state for the error case). -/
def initValue (r : Except InitError MutableState) : MutableState :=
  match r with
  | Except.ok m => m
  | Except.error _ => freshMutableState "" ""

/-- Concrete eager start request used in witnesses. -/
def eagerStartRequest : StartRequest :=
  { requestId := "req-1"
    identity := "worker-1"
    requestEagerExecution := true
    firstWorkflowTaskBackoff := false }

/-- Concrete signal-with-start request whose own request id is empty. -/
def emptyIdSignal : SignalWithStartRequest :=
  { requestId := "", signalName := "sig", identity := "client-1" }

/-- Concrete parent-execution info used in witnesses. -/
def someParent : ParentExecutionInfo :=
  { parentNamespaceId := "pns", parentWorkflowId := "pwf", parentRunId := "prun" }

/-- Concrete size limits used in witnesses (warn 10, error 20 for both
payloads). -/
def witnessLimits : SizeLimits :=
  { blobSizeLimitWarn := 10
    blobSizeLimitError := 20
    memoSizeLimitWarn := 10
    memoSizeLimitError := 20 }

end CreateWorkflowUtil

namespace ReclaimResources

/-- Concrete saga parameters used in witnesses. -/
def acmeParams : ReclaimResourcesParams :=
  { namespaceID := "ns-id-1", namespaceName := "acme", namespaceDeleteDelay := 0 }

/-- Environment of a fully successful run with zero remaining executions. -/
def envZeroExecutions : SagaEnv :=
  { isReplay := false
    recordedRemoveStdVisMarker := Option.some 0
    isAdvancedVisibilityResult := Except.ok true
    countExecutionsResult := Except.ok 0
    deleteExecutionsChildResult := Except.ok { successCount := 0, errorCount := 0 }
    ensureNoExecutionsResult := Except.ok ()
    deleteNamespaceResult := Except.ok ()
    setUpdateHandlerOk := true
    initialSleepOk := true
    delayUpdates := [] }

/-- Environment whose count-executions activity fails. -/
def envCountFails : SagaEnv :=
  { envZeroExecutions with
    countExecutionsResult := Except.error (CallError.other "store unavailable") }

/-- The ensure-no-executions application error reporting 2 residual
executions, as reported non-retryable by the callee. -/
def residualErr : ApplicationError :=
  { message := "executions still exist"
    errType := ExecutionsStillExistErrType
    nonRetryable := true
    details := Option.some 2 }

/-- Environment reproducing the residual-executions scenario: 5 executions
counted, 3 deleted successfully and 2 not, ensure-check reporting 2 residual
executions as a non-retryable application error. -/
def envResidual : SagaEnv :=
  { envZeroExecutions with
    countExecutionsResult := Except.ok 5
    deleteExecutionsChildResult := Except.ok { successCount := 3, errorCount := 2 }
    ensureNoExecutionsResult := Except.error (CallError.app residualErr) }

/-- Replay environment of a pre-revision instance: replaying a history that
carries no `remove-std-vis` version marker. -/
def envOldInstanceReplay : SagaEnv :=
  { envZeroExecutions with
    isReplay := true
    recordedRemoveStdVisMarker := Option.none }

/-- True when the trace contains a child-workflow invocation. -/
def hasChildWorkflowCall (calls : List Call) : Bool :=
  calls.any fun c =>
    match c with
    | Call.childWorkflow _ _ => true
    | _ => false

end ReclaimResources

namespace CreateWorkflowUtil

/-- The success value of `CheckEventBlobSizeLimit` never contains the
memo-size metric: only `ValidateStart` itself records it. -/
theorem checkEventBlobSizeLimit_no_memoMetric (a w e : Nat) :
    hasMemoSizeMetric (CheckEventBlobSizeLimit a w e).2 = false := by
  unfold CheckEventBlobSizeLimit hasMemoSizeMetric
  by_cases h1 : a < w <;> by_cases h2 : a < e <;> simp [h1, h2]

/-- C2: the cross-cluster version arbiter `NewWorkflowVersionCheck` fails if
and only if the prior last-write version is not the empty-version sentinel
and is strictly greater than the new state's current version; on failure the
error is a namespace-not-active error naming the cluster owning the prior
version, and otherwise it returns success. -/
theorem newWorkflowVersionCheck_fails_iff_prior_newer (cm : ClusterMetadata)
    (prev : Int) (ms : MutableStateVersionView) :
    NewWorkflowVersionCheck cm prev ms =
      (if prev ≠ EmptyVersion ∧ prev > ms.currentVersion then
        Option.some (ServiceError.namespaceNotActive ms.namespaceName
          cm.currentClusterName
          (cm.clusterNameForFailoverVersion ms.isGlobalNamespace prev))
      else Option.none) := by
  unfold NewWorkflowVersionCheck
  by_cases h1 : prev = EmptyVersion
  · simp [h1]
  · by_cases h2 : prev > ms.currentVersion <;> simp [h1, h2]

/-- C8 counterexample: a request whose input payload fails the input-size
check is rejected without ever recording the memo-size metric, so the metric
is not recorded unconditionally on every request reaching `ValidateStart`. -/
theorem memoMetric_not_recorded_on_input_size_failure :
    (ValidateStart witnessLimits 25 3).1 = Option.some ServiceError.blobSizeExceedsLimit ∧
    hasMemoSizeMetric (ValidateStart witnessLimits 25 3).2 = false := by
  constructor <;> rfl

/-- C8 amended: `ValidateStart` records the memo-size metric exactly when the
input-payload size check passes; in particular the metric is recorded even
when the terminal memo size check fails, but not when the earlier input size
check fails. -/
theorem memoMetric_recorded_iff_input_check_passes (limits : SizeLimits)
    (inputSize memoSize : Nat) :
    hasMemoSizeMetric (ValidateStart limits inputSize memoSize).2 =
      (CheckEventBlobSizeLimit inputSize limits.blobSizeLimitWarn limits.blobSizeLimitError).1.isNone := by
  unfold ValidateStart
  rcases hc : CheckEventBlobSizeLimit inputSize limits.blobSizeLimitWarn limits.blobSizeLimitError
    with ⟨o, ml⟩
  have hml : hasMemoSizeMetric ml = false := by
    have := checkEventBlobSizeLimit_no_memoMetric inputSize limits.blobSizeLimitWarn
      limits.blobSizeLimitError
    rw [hc] at this
    exact this
  rcases o with _ | e
  · rcases hc2 : CheckEventBlobSizeLimit memoSize limits.memoSizeLimitWarn limits.memoSizeLimitError
      with ⟨o2, ml2⟩
    rcases o2 with _ | e2 <;>
      simp_all [hasMemoSizeMetric, List.any_append]
  · simp_all

end CreateWorkflowUtil

namespace CreateWorkflowUtil

/-- C4: during initialization (`NewWorkflowWithSignal`), the first workflow
task is advanced to the started state if and only if no parent execution is
present, a pending workflow task exists after first-task generation, and
eager dispatch was requested; in all other cases it is left merely scheduled
or absent. -/
theorem eager_first_task_started_iff (env : InitEnv) (wid rid : String)
    (req : StartRequest) (parent : Option ParentExecutionInfo)
    (sig : Option SignalWithStartRequest) (res : MutableState)
    (h : NewWorkflowWithSignal env wid rid req parent sig = Except.ok res) :
    res.workflowTaskState = WorkflowTaskState.started ↔
      (parent = Option.none ∧
        HasPendingWorkflowTask (GenerateFirstWorkflowTask (freshMutableState wid rid) parent
          req.firstWorkflowTaskBackoff req.requestEagerExecution).1 = true ∧
        req.requestEagerExecution = true) := by
  rcases env with ⟨c, a, g, t⟩
  rcases req with ⟨reqid, ident, eager, backoff⟩
  cases c <;> cases a <;> cases g <;> cases t <;>
    rcases parent with _ | p <;> rcases sig with _ | s <;> cases eager <;> cases backoff <;>
    (try by_cases hs : s.requestId = "") <;>
    (first
      | simp [NewWorkflowWithSignal, GenerateFirstWorkflowTask, AddFirstWorkflowTaskScheduled,
          HasPendingWorkflowTask, AddSignalRequested, AddWorkflowExecutionSignaled,
          AddWorkflowTaskStartedEvent, freshMutableState, hs] at h
      | simp [NewWorkflowWithSignal, GenerateFirstWorkflowTask, AddFirstWorkflowTaskScheduled,
          HasPendingWorkflowTask, AddSignalRequested, AddWorkflowExecutionSignaled,
          AddWorkflowTaskStartedEvent, freshMutableState] at h) <;>
    subst h <;>
    simp_all [GenerateFirstWorkflowTask, AddFirstWorkflowTaskScheduled,
      HasPendingWorkflowTask, freshMutableState]

/-- C4 witness: a non-child eager start request without backoff ends
initialization with the first workflow task in the started state. -/
theorem eager_first_task_started_iff_witness :
    (initValue (NewWorkflowWithSignal initEnvOk "wf" "run" eagerStartRequest
      Option.none Option.none)).workflowTaskState = WorkflowTaskState.started :=
  (eager_first_task_started_iff initEnvOk "wf" "run" eagerStartRequest Option.none Option.none
    (initValue (NewWorkflowWithSignal initEnvOk "wf" "run" eagerStartRequest
      Option.none Option.none)) rfl).mpr ⟨rfl, rfl, rfl⟩

/-- C9: in signal-with-start initialization, the signal-requested marker is
recorded only when the signal's own request id is non-empty; with an empty
request id no marker is recorded, but the execution-signaled event is still
appended to history. -/
theorem signal_marker_only_for_nonempty_request_id (env : InitEnv) (wid rid : String)
    (req : StartRequest) (parent : Option ParentExecutionInfo)
    (s : SignalWithStartRequest) (res : MutableState)
    (h : NewWorkflowWithSignal env wid rid req parent (Option.some s) = Except.ok res) :
    (s.requestId = "" → res.signalRequestedIds = []) ∧
    (s.requestId ≠ "" → res.signalRequestedIds = [s.requestId]) ∧
    HistoryEventKind.workflowExecutionSignaled s.signalName s.identity ∈ res.events := by
  rcases env with ⟨c, a, g, t⟩
  rcases req with ⟨reqid, ident, eager, backoff⟩
  cases c <;> cases a <;> cases g <;> cases t <;>
    rcases parent with _ | p <;> cases eager <;> cases backoff <;>
    by_cases hs : s.requestId = "" <;>
    simp [NewWorkflowWithSignal, GenerateFirstWorkflowTask, AddFirstWorkflowTaskScheduled,
      HasPendingWorkflowTask, AddSignalRequested, AddWorkflowExecutionSignaled,
      AddWorkflowTaskStartedEvent, freshMutableState, hs] at h <;>
    subst h <;>
    simp_all [GenerateFirstWorkflowTask, AddFirstWorkflowTaskScheduled,
      HasPendingWorkflowTask, freshMutableState]

/-- C9 witness: a signal-with-start whose signal request id is empty records
no marker while the signaled event is appended. -/
theorem signal_marker_only_for_nonempty_request_id_witness :
    (initValue (NewWorkflowWithSignal initEnvOk "wf" "run" eagerStartRequest
      Option.none (Option.some emptyIdSignal))).signalRequestedIds = [] ∧
    HistoryEventKind.workflowExecutionSignaled "sig" "client-1" ∈
      (initValue (NewWorkflowWithSignal initEnvOk "wf" "run" eagerStartRequest
        Option.none (Option.some emptyIdSignal))).events :=
  have hthm := signal_marker_only_for_nonempty_request_id initEnvOk "wf" "run"
    eagerStartRequest Option.none emptyIdSignal
    (initValue (NewWorkflowWithSignal initEnvOk "wf" "run" eagerStartRequest
      Option.none (Option.some emptyIdSignal))) rfl
  ⟨hthm.1 rfl, hthm.2.2⟩

/-- C10: when a parent-execution context is present, `GenerateFirstWorkflowTask`
schedules no first workflow task, returning scheduled-event id 0 with the
state unchanged (and no error), and initialization leaves the first workflow
task in state none, regardless of the eager-dispatch flag. -/
theorem child_execution_generates_no_first_task (env : InitEnv) (wid rid : String)
    (req : StartRequest) (ms : MutableState) (p : ParentExecutionInfo)
    (backoff bypass : Bool) (sig : Option SignalWithStartRequest) (res : MutableState)
    (h : NewWorkflowWithSignal env wid rid req (Option.some p) sig = Except.ok res) :
    GenerateFirstWorkflowTask ms (Option.some p) backoff bypass = (ms, 0) ∧
    res.workflowTaskState = WorkflowTaskState.none := by
  refine ⟨rfl, ?_⟩
  rcases env with ⟨c, a, g, t⟩
  rcases req with ⟨reqid, ident, eager, backoff'⟩
  cases c <;> cases a <;> cases g <;> cases t <;>
    rcases sig with _ | s <;> cases eager <;> cases backoff' <;>
    (try by_cases hs : s.requestId = "") <;>
    (first
      | simp [NewWorkflowWithSignal, GenerateFirstWorkflowTask, AddFirstWorkflowTaskScheduled,
          HasPendingWorkflowTask, AddSignalRequested, AddWorkflowExecutionSignaled,
          AddWorkflowTaskStartedEvent, freshMutableState, hs] at h
      | simp [NewWorkflowWithSignal, GenerateFirstWorkflowTask, AddFirstWorkflowTaskScheduled,
          HasPendingWorkflowTask, AddSignalRequested, AddWorkflowExecutionSignaled,
          AddWorkflowTaskStartedEvent, freshMutableState] at h) <;>
    subst h <;>
    simp_all [GenerateFirstWorkflowTask, AddFirstWorkflowTaskScheduled,
      HasPendingWorkflowTask, freshMutableState]

/-- C10 witness: with a parent execution present and eager dispatch
requested, generation returns the state unchanged with id 0 and the first
workflow task stays in state none. -/
theorem child_execution_generates_no_first_task_witness :
    GenerateFirstWorkflowTask (freshMutableState "a" "b") (Option.some someParent) false true =
      (freshMutableState "a" "b", 0) ∧
    (initValue (NewWorkflowWithSignal initEnvOk "wf" "run" eagerStartRequest
      (Option.some someParent) Option.none)).workflowTaskState = WorkflowTaskState.none :=
  child_execution_generates_no_first_task initEnvOk "wf" "run" eagerStartRequest
    (freshMutableState "a" "b") someParent false true Option.none
    (initValue (NewWorkflowWithSignal initEnvOk "wf" "run" eagerStartRequest
      (Option.some someParent) Option.none)) rfl

end CreateWorkflowUtil

namespace ReclaimResources

/-- The namespace-record deletion local activity is never part of the trace
of the delete-executions step, whatever the environment. -/
theorem deleteNamespaceCall_not_mem_dwe (env : SagaEnv) (params : ReclaimResourcesParams) :
    Call.localActivity DeleteNamespaceActivityName ∉ (deleteWorkflowExecutions env params).calls := by
  rcases hA : env.isAdvancedVisibilityResult with eA | bA <;>
  rcases hC : env.countExecutionsResult with eC | nC <;>
  rcases hD : env.deleteExecutionsChildResult with eD | der <;>
  rcases hE : env.ensureNoExecutionsResult with eE | uE <;>
  by_cases hv : getVersion env.isReplay env.recordedRemoveStdVisMarker 0 = DefaultVersion <;>
  (try rcases eE with appErr | msg) <;>
  (try by_cases hn : nC = 0) <;>
  (try by_cases ht : appErr.errType = ExecutionsStillExistErrType ∨
    appErr.errType = NoProgressErrType ∨
    appErr.errType = NotDeletedExecutionsStillExistErrType) <;>
  simp_all [deleteWorkflowExecutions, emptyResult, DeleteNamespaceActivityName,
    IsAdvancedVisibilityActivityName, CountExecutionsAdvVisibilityActivityName,
    EnsureNoExecutionsAdvVisibilityActivityName, DeleteExecutionsWorkflowName,
    ExecutionsStillExistErrType, NoProgressErrType, NotDeletedExecutionsStillExistErrType]

/-- C1: in every run of `ReclaimResourcesWorkflow`, the namespace-record
deletion activity is invoked only if the delete-executions step completed
without error, and any error of the delete-executions step terminates the
run with that error before namespace deletion is ever called. -/
theorem deleteNamespace_only_after_deleteExecutions_success (env : SagaEnv)
    (params : ReclaimResourcesParams) (e : WorkflowError) :
    (Call.localActivity DeleteNamespaceActivityName ∈ (ReclaimResourcesWorkflow env params).calls →
      (deleteWorkflowExecutions env params).error = Option.none) ∧
    ((deleteWorkflowExecutions env params).error = Option.some e →
      validateParams params = Option.none →
      env.setUpdateHandlerOk = true →
      env.initialSleepOk = true →
      (ReclaimResourcesWorkflow env params).error = Option.some e ∧
      Call.localActivity DeleteNamespaceActivityName ∉ (ReclaimResourcesWorkflow env params).calls) := by
  have hnod := deleteNamespaceCall_not_mem_dwe env params
  rcases hvp : validateParams params with _ | ea
  · by_cases hsu : env.setUpdateHandlerOk <;> by_cases hsl : env.initialSleepOk <;>
      rcases hde : (deleteWorkflowExecutions env params).error with _ | eD <;>
      simp_all [ReclaimResourcesWorkflow, namespaceCacheRefreshDelay, DeleteNamespaceActivityName]
  · simp_all [ReclaimResourcesWorkflow]

/-- C1 witness: a fully successful run does reach namespace deletion with an
error-free delete-executions step, and a run whose count-executions activity
fails returns that wrapped error without ever invoking namespace deletion. -/
theorem deleteNamespace_only_after_deleteExecutions_success_witness :
    (deleteWorkflowExecutions envZeroExecutions acmeParams).error = Option.none ∧
    ((ReclaimResourcesWorkflow envCountFails acmeParams).error =
        Option.some (WorkflowError.unableToExecuteActivity
          CountExecutionsAdvVisibilityActivityName (CallError.other "store unavailable")) ∧
      Call.localActivity DeleteNamespaceActivityName ∉
        (ReclaimResourcesWorkflow envCountFails acmeParams).calls) :=
  ⟨(deleteNamespace_only_after_deleteExecutions_success envZeroExecutions acmeParams
      (WorkflowError.unableToExecuteActivity CountExecutionsAdvVisibilityActivityName
        (CallError.other "store unavailable"))).1 (by decide),
   (deleteNamespace_only_after_deleteExecutions_success envCountFails acmeParams
      (WorkflowError.unableToExecuteActivity CountExecutionsAdvVisibilityActivityName
        (CallError.other "store unavailable"))).2 (by decide) rfl rfl rfl⟩

/-- C3: when the ensure-no-executions activity fails with an application
error of type executions-still-exist, no-progress, or
not-deleted-executions-still-exist, the saga returns a retryable application
error of the same type carrying the residual not-deleted count as details,
together with the partial result accumulated so far, and `NamespaceDeleted`
remains false. -/
theorem residual_executions_error_retryable (env : SagaEnv) (params : ReclaimResourcesParams)
    (appErr : ApplicationError) (n : Int) (der : DeleteExecutionsResult) (b : Bool)
    (hvp : validateParams params = Option.none)
    (hsu : env.setUpdateHandlerOk = true)
    (hsl : env.initialSleepOk = true)
    (hA : env.isAdvancedVisibilityResult = Except.ok b)
    (hC : env.countExecutionsResult = Except.ok n) (hn : n ≠ 0)
    (hD : env.deleteExecutionsChildResult = Except.ok der)
    (hE : env.ensureNoExecutionsResult = Except.error (CallError.app appErr))
    (ht : appErr.errType = ExecutionsStillExistErrType ∨ appErr.errType = NoProgressErrType ∨
      appErr.errType = NotDeletedExecutionsStillExistErrType) :
    (ReclaimResourcesWorkflow env params).error = Option.some (WorkflowError.app
      { message := appErr.message, errType := appErr.errType, nonRetryable := false,
        details := Option.some (appErr.details.getD 0) }) ∧
    (ReclaimResourcesWorkflow env params).result =
      { deleteSuccessCount := der.successCount, deleteErrorCount := der.errorCount,
        namespaceDeleted := false } := by
  have h1 : (deleteWorkflowExecutions env params).error = Option.some (WorkflowError.app
      { message := appErr.message, errType := appErr.errType, nonRetryable := false,
        details := Option.some (appErr.details.getD 0) }) ∧
      (deleteWorkflowExecutions env params).result =
      { deleteSuccessCount := der.successCount, deleteErrorCount := der.errorCount,
        namespaceDeleted := false } := by
    by_cases hv : getVersion env.isReplay env.recordedRemoveStdVisMarker 0 = DefaultVersion <;>
      simp [deleteWorkflowExecutions, hA, hC, hD, hE, hn, ht, hv]
  refine ⟨?_, ?_⟩ <;> simp [ReclaimResourcesWorkflow, hvp, hsu, hsl, h1.1, h1.2]

/-- C3 witness: the scenario with 5 executions, 3 deleted and 2 residual,
reported non-retryable by the callee, yields a retryable error of the same
type with details 2, the partial counts, and `NamespaceDeleted` false. -/
theorem residual_executions_error_retryable_witness :
    (ReclaimResourcesWorkflow envResidual acmeParams).error = Option.some (WorkflowError.app
      { message := "executions still exist", errType := ExecutionsStillExistErrType,
        nonRetryable := false, details := Option.some 2 }) ∧
    (ReclaimResourcesWorkflow envResidual acmeParams).result =
      { deleteSuccessCount := 3, deleteErrorCount := 2, namespaceDeleted := false } :=
  residual_executions_error_retryable envResidual acmeParams residualErr 5
    { successCount := 3, errorCount := 2 } true rfl rfl rfl rfl rfl (by decide) rfl rfl
    (Or.inl rfl)

/-- C7: if the count-executions query returns 0, the delete-executions step
returns the zero-count result without error and the bulk-deletion child
workflow is never invoked. -/
theorem zero_executions_skips_bulk_deletion (env : SagaEnv) (params : ReclaimResourcesParams)
    (b : Bool) (hA : env.isAdvancedVisibilityResult = Except.ok b)
    (hC : env.countExecutionsResult = Except.ok 0) :
    (deleteWorkflowExecutions env params).result = emptyResult ∧
    (deleteWorkflowExecutions env params).error = Option.none ∧
    hasChildWorkflowCall (deleteWorkflowExecutions env params).calls = false := by
  by_cases hv : getVersion env.isReplay env.recordedRemoveStdVisMarker 0 = DefaultVersion <;>
    simp [deleteWorkflowExecutions, hA, hC, hv, hasChildWorkflowCall]

/-- C7 witness: with zero executions counted the step yields the zero result,
no error, and a trace without any child-workflow invocation. -/
theorem zero_executions_skips_bulk_deletion_witness :
    (deleteWorkflowExecutions envZeroExecutions acmeParams).result = emptyResult ∧
    (deleteWorkflowExecutions envZeroExecutions acmeParams).error = Option.none ∧
    hasChildWorkflowCall (deleteWorkflowExecutions envZeroExecutions acmeParams).calls = false :=
  zero_executions_skips_bulk_deletion envZeroExecutions acmeParams true rfl rfl

/-- C5 counterexample: a reconfiguration to the nonzero value 5 delivered
during an outstanding wait of 10 cancels that wait and re-arms a second wait
of 5, so after a reconfiguration the loop neither necessarily proceeds
immediately nor stays un-re-armed. -/
theorem awaitOptionalDelay_rearms_after_nonzero_update :
    awaitOptionalDelay 10 [5] = [Call.sleep 10 true, Call.sleep 5 false] := by
  decide

/-- C5 amended: a reconfiguration delivered while the delay wait is
outstanding cancels the current wait; if the new delay is zero the loop exits
immediately without re-waiting, and if it is nonzero the wait is re-armed
once with the new value (absent further reconfiguration the loop exits after
that wait elapses, the stored delay having been zeroed). -/
theorem awaitOptionalDelay_update_behaviour (d u : Int) (hd : d > 0) :
    awaitOptionalDelay d [] = [Call.sleep d false] ∧
    awaitOptionalDelay d [0] = [Call.sleep d true] ∧
    (u > 0 → awaitOptionalDelay d [u] = [Call.sleep d true, Call.sleep u false]) := by
  refine ⟨?_, ?_, fun hu => ?_⟩ <;> simp [awaitOptionalDelay, hd]
  omega

/-- C5 amended witness: with an initial delay of 7, no reconfiguration gives
one full wait, clearing to 0 gives one cancelled wait and no re-wait, and
reconfiguring to 3 gives a cancelled wait followed by one wait of 3. -/
theorem awaitOptionalDelay_update_behaviour_witness :
    awaitOptionalDelay 7 [] = [Call.sleep 7 false] ∧
    awaitOptionalDelay 7 [0] = [Call.sleep 7 true] ∧
    awaitOptionalDelay 7 [3] = [Call.sleep 7 true, Call.sleep 3 false] :=
  ⟨(awaitOptionalDelay_update_behaviour 7 3 (by decide)).1,
   (awaitOptionalDelay_update_behaviour 7 3 (by decide)).2.1,
   (awaitOptionalDelay_update_behaviour 7 3 (by decide)).2.2 (by decide)⟩

/-- C6 counterexample: a pre-revision instance (replaying a history with no
`remove-std-vis` marker, hence the default version) does execute the obsolete
visibility-backend probe on replay — it is not skipped as the claim states. -/
theorem probe_executed_on_default_version_replay :
    getVersion envOldInstanceReplay.isReplay
      envOldInstanceReplay.recordedRemoveStdVisMarker 0 = DefaultVersion ∧
    Call.localActivity IsAdvancedVisibilityActivityName ∈
      (deleteWorkflowExecutions envOldInstanceReplay acmeParams).calls := by
  constructor
  · rfl
  · decide

/-- C6 amended: the obsolete visibility-backend probe is executed exactly
when the recorded version marker yields the default version (instances
created before the revision), and skipped for instances recorded at the
post-revision version; the branch is selected by the recorded marker, not by
re-evaluating current code. -/
theorem probe_executed_iff_default_version (env : SagaEnv) (params : ReclaimResourcesParams) :
    Call.localActivity IsAdvancedVisibilityActivityName ∈
        (deleteWorkflowExecutions env params).calls ↔
      getVersion env.isReplay env.recordedRemoveStdVisMarker 0 = DefaultVersion := by
  rcases hA : env.isAdvancedVisibilityResult with eA | bA <;>
  rcases hC : env.countExecutionsResult with eC | nC <;>
  rcases hD : env.deleteExecutionsChildResult with eD | der <;>
  rcases hE : env.ensureNoExecutionsResult with eE | uE <;>
  by_cases hv : getVersion env.isReplay env.recordedRemoveStdVisMarker 0 = DefaultVersion <;>
  (try rcases eE with appErr | msg) <;>
  (try by_cases hn : nC = 0) <;>
  (try by_cases ht : appErr.errType = ExecutionsStillExistErrType ∨
    appErr.errType = NoProgressErrType ∨
    appErr.errType = NotDeletedExecutionsStillExistErrType) <;>
  simp_all [deleteWorkflowExecutions, emptyResult, DeleteNamespaceActivityName,
    IsAdvancedVisibilityActivityName, CountExecutionsAdvVisibilityActivityName,
    EnsureNoExecutionsAdvVisibilityActivityName, DeleteExecutionsWorkflowName,
    ExecutionsStillExistErrType, NoProgressErrType, NotDeletedExecutionsStillExistErrType]

end ReclaimResources
